import Mathlib

/-!
Verification of the MultiversX MetaMask provider adapter
(`src/constants.ts` / the `MetamaskProvider` class).

The class is a process-wide singleton holding an account record and an
`initialized` flag, and forwarding signing / address requests to the
MetaMask snap through `wallet_invokeSnap` RPC calls.  We embed it
shallowly: the mutable singleton becomes an explicit `ProviderState`
threaded through each operation, a fallible `async` method becomes a
function into `Except ProviderErr _`, and the behaviour of the external
environment (extension presence, snap handshake results, RPC
resolutions / rejections) is passed in as explicit arguments so that
theorems can quantify over every environment behaviour.
-/

namespace MetamaskProvider

/-- The `IMetamaskWalletAccount` interface:
`{ address: string; name?: string; signature?: string }`. -/
structure IMetamaskWalletAccount where
  address : String
  name : Option String := none
  signature : Option String := none
deriving DecidableEq, Repr

/-- The error kinds the adapter can surface.  `notInitialized` models the
generic `Error('Metamask provider is not initialised, call init() first')`
thrown by `login`/`logout`/`getAddress`; `accountNotConnected`,
`cannotSignSingleTransaction` and `transactionCancelled` model the typed
errors `ErrAccountNotConnected`, `ErrCannotSignSingleTransaction` and
`ErrTransactionCancelled` imported from `./errors`; `rpcErr` carries an
underlying RPC rejection that is propagated unchanged (its payload is
modelled as a string). -/
inductive ProviderErr where
  | notInitialized
  | accountNotConnected
  | cannotSignSingleTransaction
  | transactionCancelled
  | rpcErr (msg : String)
deriving DecidableEq, Repr

/-- The mutable fields of the `MetamaskProvider` singleton:
`public account` and `private initialized`. -/
structure ProviderState where
  account : IMetamaskWalletAccount
  initialized : Bool
deriving DecidableEq, Repr

/-- The state of the singleton right after construction:
`account = { address: '' }`, `initialized = false`. -/
def initialState : ProviderState :=
  { account := { address := "" }, initialized := false }

/-- `setAddress(address)`: `this.account.address = address` (the returned
singleton reference is the updated state itself). -/
def setAddress (st : ProviderState) (address : String) : ProviderState :=
  { st with account := { st.account with address := address } }

/-- `setAccount(account)`: `this.account = account`. -/
def setAccount (st : ProviderState) (account : IMetamaskWalletAccount) :
    ProviderState :=
  { st with account := account }

/-- `getAccount()`: returns `this.account`. -/
def getAccount (st : ProviderState) : IMetamaskWalletAccount :=
  st.account

/-- `init()`.  Arguments model the environment: `hasMetamask` is the
result of `MetamaskProvider.isMetamaskInstalled()`, `connectSnapRes` the
resolution / rejection of `connectSnap()`, and `getSnapRes` that of
`getSnap()` (whose value may be `undefined`, modelled by `Option`).
The body runs the two-step handshake only when the extension is present
and the provider is not yet initialized, swallows any handshake error
into `initialized = false`, and returns `this.initialized`.  The
function is total (codomain is a plain pair, not `Except`): `init`
never throws. -/
def init (st : ProviderState) (hasMetamask : Bool)
    (connectSnapRes : Except String Unit)
    (getSnapRes : Except String (Option String)) : ProviderState × Bool :=
  if hasMetamask && !st.initialized then
    match connectSnapRes with
    | .error _ => ({ st with initialized := false }, false)
    | .ok _ =>
      match getSnapRes with
      | .error _ => ({ st with initialized := false }, false)
      | .ok installedSnap =>
        ({ st with initialized := installedSnap.isSome }, installedSnap.isSome)
  else
    (st, st.initialized)

/-- `login(options)`.  `token` is `options.token`; `addressRpc` models
the resolution / rejection of the `mvx_getAddress` RPC and `signAuthRpc`
that of the `mvx_signAuthToken` RPC (issued only when a token was
supplied).  Returns the updated state together with either the account
or the error thrown: `NotInitialized` before a successful `init`, or the
underlying RPC rejection rethrown unchanged.  Note that when the address
RPC succeeds, `this.account.address` is assigned before the token RPC is
attempted, so a later rejection leaves the address mutated. -/
def login (st : ProviderState) (token : Option String)
    (addressRpc : Except String String) (signAuthRpc : Except String String) :
    ProviderState × Except ProviderErr IMetamaskWalletAccount :=
  if !st.initialized then
    (st, .error .notInitialized)
  else
    match addressRpc with
    | .error e => (st, .error (.rpcErr e))
    | .ok address =>
      let st1 := { st with account := { st.account with address := address } }
      match token with
      | none => (st1, .ok st1.account)
      | some _ =>
        match signAuthRpc with
        | .error e => (st1, .error (.rpcErr e))
        | .ok tokenSigned =>
          let st2 :=
            { st1 with
              account := { st1.account with signature := some tokenSigned } }
          (st2, .ok st2.account)

/-- `logout()`: throws `NotInitialized` when not initialized, otherwise
resets `this.account = { address: '' }` and returns `true`. -/
def logout (st : ProviderState) :
    ProviderState × Except ProviderErr Bool :=
  if !st.initialized then
    (st, .error .notInitialized)
  else
    ({ st with account := { address := "" } }, .ok true)

/-- `getAddress()`: throws `NotInitialized` when not initialized,
otherwise returns `this.account ? this.account.address : ''` (the
account object is always present, so this is `this.account.address`).
Read-only: it does not touch the state. -/
def getAddress (st : ProviderState) : Except ProviderErr String :=
  if !st.initialized then .error .notInitialized
  else .ok st.account.address

/-- `isInitialized()`. -/
def isInitialized (st : ProviderState) : Bool :=
  st.initialized

/-- `isConnected()`: `Boolean(this.account.address)` — true iff the
address string is non-empty. -/
def isConnected (st : ProviderState) : Bool :=
  st.account.address != ""

/-- `cancelAction()`: always returns `false`. -/
def cancelAction : Bool := false

/-- A transaction value (`Transaction` from `@multiversx/sdk-core`).  The
adapter never inspects it beyond round-tripping it through its plain
serialized form, so we embed it as an opaque wrapper around that plain
form. -/
structure Transaction where
  plain : String
deriving DecidableEq, Repr

/-- `transaction.toPlainObject()`: the transport-neutral serialization of
a transaction; opaque to the adapter. -/
def Transaction.toPlainObject (t : Transaction) : String :=
  t.plain

/-- The parsing step applied to each string of the `mvx_signTransactions`
response: `Transaction.fromPlainObject(JSON.parse(s))`.  Both can throw
on a malformed string; being external `sdk-core` / builtin code, the
parser is passed in as a function returning `none` exactly where the
original would throw.  `parseAll` mirrors `metamaskReponse.map(...)`: a
throw on any element aborts the whole map. -/
def parseAll (parse : String → Option Transaction) :
    List String → Option (List Transaction)
  | [] => some []
  | s :: rest =>
    match parse s with
    | none => none
    | some t =>
      match parseAll parse rest with
      | none => none
      | some ts => some (t :: ts)

/-- `signTransactions(transactions)`.  `rpc` models the resolution /
rejection of the single `mvx_signTransactions` RPC carrying the batch
(the resolution is the `string[]` response); `parse` models
`Transaction.fromPlainObject(JSON.parse(·))` on each response element.
The whole body sits in a `try` whose `catch` throws
`ErrTransactionCancelled`, so every failure — RPC rejection or a parse
throw — is normalized to `transactionCancelled` and the original error
is discarded. -/
def signTransactions (transactions : List Transaction)
    (rpc : Except String (List String))
    (parse : String → Option Transaction) :
    Except ProviderErr (List Transaction) :=
  let _transactionsPlain := transactions.map Transaction.toPlainObject
  match rpc with
  | .error _ => .error .transactionCancelled
  | .ok metamaskReponse =>
    match parseAll parse metamaskReponse with
    | none => .error .transactionCancelled
    | some transactionsResponse => .ok transactionsResponse

/-- `signTransaction(transaction)`, parameterized by the behaviour of
the batched call it delegates to: it runs `signTransactions([tx])`,
throws `ErrCannotSignSingleTransaction` when the result list's length is
not exactly 1, and otherwise returns its only element. -/
def signTransactionWith
    (batchSign : List Transaction → Except ProviderErr (List Transaction))
    (transaction : Transaction) : Except ProviderErr Transaction :=
  match batchSign [transaction] with
  | .error e => .error e
  | .ok signedTransactions =>
    match signedTransactions with
    | [t] => .ok t
    | _ => .error .cannotSignSingleTransaction

/-- `signTransaction(transaction)` with the concrete `signTransactions`
body plugged in. -/
def signTransaction (transaction : Transaction)
    (rpc : Except String (List String))
    (parse : String → Option Transaction) : Except ProviderErr Transaction :=
  signTransactionWith (fun txs => signTransactions txs rpc parse) transaction

/-- An address value (`Address` from `@multiversx/sdk-core`); opaque to
the adapter, embedded as a wrapper around its bech32 form. -/
structure Address where
  bech32 : String
deriving DecidableEq, Repr

/-- `Address.fromBech32`: the external `sdk-core` constructor, opaque
here. -/
def Address.fromBech32 (s : String) : Address :=
  ⟨s⟩

/-- A message value (`Message` from `@multiversx/sdk-core`): byte data,
optional address, optional signer tag, version, optional signature
bytes. -/
structure Message where
  data : List Nat
  address : Option Address := none
  signer : Option String := none
  version : Nat := 1
  signature : Option (List Nat) := none
deriving DecidableEq, Repr

/-- One hexadecimal digit, as `Buffer.from(·, 'hex')` reads it. -/
def hexDigit (c : Char) : Option Nat :=
  if '0' ≤ c ∧ c ≤ '9' then some (c.toNat - '0'.toNat)
  else if 'a' ≤ c ∧ c ≤ 'f' then some (c.toNat - 'a'.toNat + 10)
  else if 'A' ≤ c ∧ c ≤ 'F' then some (c.toNat - 'A'.toNat + 10)
  else none

/-- Hex decoding on a character list: consume digit pairs, stopping (as
`Buffer.from(·, 'hex')` does) at the first incomplete or invalid
pair. -/
def hexDecodeAux : List Char → List Nat
  | c1 :: c2 :: rest =>
    match hexDigit c1, hexDigit c2 with
    | some hi, some lo => (16 * hi + lo) :: hexDecodeAux rest
    | _, _ => []
  | _ => []

/-- `Buffer.from(s, 'hex')`: the byte sequence obtained by decoding `s`
from hexadecimal. -/
def hexDecode (s : String) : List Nat :=
  hexDecodeAux s.data

/-- `ensureConnected()` as a predicate: the `ErrAccountNotConnected`
throw fires iff `!this.account.address || !hasMetamask`. -/
def connected (st : ProviderState) (hasMetamask : Bool) : Bool :=
  st.account.address != "" && hasMetamask

/-- `signMessage(messageToSign)`.  `hasMetamask` models
`MetamaskProvider.isMetamaskInstalled()` inside `ensureConnected`, and
`rpc` the resolution / rejection of the `mvx_signMessage` RPC (the
resolution is the hex-encoded signature string).  After the connection
check, the body builds a new `Message` carrying the original data, the
message's own address or else the session address, the fixed signer tag
`'metamask'`, the original version, and the signature decoded from
hexadecimal; the `catch` rethrows any error unchanged. -/
def signMessage (st : ProviderState) (hasMetamask : Bool)
    (messageToSign : Message) (rpc : Except String String) :
    Except ProviderErr Message :=
  if !(connected st hasMetamask) then
    .error .accountNotConnected
  else
    match rpc with
    | .error e => .error (.rpcErr e)
    | .ok metamaskReponse =>
      .ok
        { data := messageToSign.data
          address :=
            some
              (messageToSign.address.getD (Address.fromBech32 st.account.address))
          signer := some "metamask"
          version := messageToSign.version
          signature := some (hexDecode metamaskReponse) }

/-- One externally-triggered operation on the singleton together with
the environment behaviour it observes.  These are the public operations
that can touch the provider state (`signTransactions` / `signMessage` /
the pure accessors never write it, and `getAddress` is read-only). -/
inductive Ev where
  | evInit (hasMetamask : Bool) (connectSnapRes : Except String Unit)
      (getSnapRes : Except String (Option String))
  | evLogin (token : Option String) (addressRpc : Except String String)
      (signAuthRpc : Except String String)
  | evLogout
  | evGetAddress
  | evSetAddress (address : String)
  | evSetAccount (account : IMetamaskWalletAccount)

/-- Provider state plus a ghost flag recording whether some `login` call
has successfully retrieved an address from the `mvx_getAddress` RPC
(the only way `login` ever writes `account.address`). -/
structure GState where
  st : ProviderState
  loginSucceeded : Bool
deriving DecidableEq, Repr

/-- The ghost start state: freshly constructed singleton, no login
yet. -/
def initialG : GState :=
  ⟨initialState, false⟩

/-- Whether an `Except` resolved. -/
def isOkB {α : Type} : Except String α → Bool
  | .ok _ => true
  | .error _ => false

/-- Run one event against the (ghost-extended) state. -/
def stepEv (g : GState) : Ev → GState
  | .evInit hasMetamask c gr => ⟨(init g.st hasMetamask c gr).1, g.loginSucceeded⟩
  | .evLogin tok a s =>
    ⟨(login g.st tok a s).1,
      g.loginSucceeded || (g.st.initialized && isOkB a)⟩
  | .evLogout => ⟨(logout g.st).1, g.loginSucceeded⟩
  | .evGetAddress => g
  | .evSetAddress a => ⟨setAddress g.st a, g.loginSucceeded⟩
  | .evSetAccount acc => ⟨setAccount g.st acc, g.loginSucceeded⟩

/-- Run a list of events from a state. -/
def runEvents (g : GState) : List Ev → GState
  | [] => g
  | e :: rest => runEvents (stepEv g e) rest

/-- The claimed invariant: a non-empty `account.address` implies the
provider is initialized and a login has successfully retrieved an
address. -/
def accountInv (g : GState) : Prop :=
  g.st.account.address ≠ "" →
    g.st.initialized = true ∧ g.loginSucceeded = true

instance (g : GState) : Decidable (accountInv g) := by
  unfold accountInv; infer_instance

/-- Events corresponding to operations other than the raw account
setters `setAddress` / `setAccount`. -/
def preservingEv : Ev → Bool
  | .evSetAddress _ => false
  | .evSetAccount _ => false
  | _ => true

/-- `init` never writes the account record. -/
theorem init_account (st : ProviderState) (hasMM : Bool)
    (c : Except String Unit) (gr : Except String (Option String)) :
    (init st hasMM c gr).1.account = st.account := by
  unfold init
  split
  · cases c with
    | error e => rfl
    | ok u =>
      cases gr with
      | error e => rfl
      | ok s => rfl
  · rfl

/-- Once initialized, `init` skips the handshake and leaves the state
untouched, returning the current flag. -/
theorem init_of_initialized (st : ProviderState) (h : st.initialized = true)
    (hasMM : Bool) (c : Except String Unit)
    (gr : Except String (Option String)) :
    init st hasMM c gr = (st, st.initialized) := by
  unfold init
  simp [h]

/-- `login` either leaves the state untouched, or was initialized, got a
successful address RPC, and stays initialized. -/
theorem login_state (st : ProviderState) (tok : Option String)
    (a s : Except String String) :
    (login st tok a s).1 = st ∨
      (st.initialized = true ∧ (login st tok a s).1.initialized = true ∧
        isOkB a = true) := by
  by_cases hi : st.initialized = true
  · cases a with
    | error e => left; simp [login, hi]
    | ok addr =>
      right
      refine ⟨hi, ?_, rfl⟩
      cases tok with
      | none => simp [login, hi]
      | some t =>
        cases s with
        | error e2 => simp [login, hi]
        | ok x => simp [login, hi]
  · left
    have hf : st.initialized = false := by simpa using hi
    simp [login, hf]

/-- `logout` either leaves the state untouched or empties the account's
address. -/
theorem logout_state (st : ProviderState) :
    (logout st).1 = st ∨ (logout st).1.account.address = "" := by
  by_cases hi : st.initialized = true
  · right; simp [logout, hi]
  · left
    have hf : st.initialized = false := by simpa using hi
    simp [logout, hf]

/-- Every operation except the raw account setters preserves the account
invariant. -/
theorem accountInv_step (g : GState) (e : Ev) (hg : accountInv g)
    (he : preservingEv e = true) : accountInv (stepEv g e) := by
  cases e with
  | evInit hasMM c gr =>
    simp only [accountInv, stepEv]
    intro hne
    rw [init_account] at hne
    obtain ⟨hi, hf⟩ := hg hne
    rw [init_of_initialized g.st hi]
    exact ⟨hi, hf⟩
  | evLogin tok a s =>
    simp only [accountInv, stepEv]
    intro hne
    rcases login_state g.st tok a s with hsame | ⟨hi, hinit, hok⟩
    · rw [hsame] at hne ⊢
      obtain ⟨hi0, hf0⟩ := hg hne
      exact ⟨hi0, by simp [hf0]⟩
    · exact ⟨hinit, by simp [hi, hok]⟩
  | evLogout =>
    simp only [accountInv, stepEv]
    intro hne
    rcases logout_state g.st with hsame | hempty
    · rw [hsame] at hne ⊢
      obtain ⟨hi0, hf0⟩ := hg hne
      exact ⟨hi0, hf0⟩
    · exact absurd hempty hne
  | evGetAddress => exact hg
  | evSetAddress a => simp [preservingEv] at he
  | evSetAccount acc => simp [preservingEv] at he

/-- The account invariant holds along every run of invariant-preserving
events. -/
theorem accountInv_run (g : GState) (evs : List Ev) (hg : accountInv g)
    (h : ∀ e ∈ evs, preservingEv e = true) :
    accountInv (runEvents g evs) := by
  induction evs generalizing g with
  | nil => exact hg
  | cons e rest ih =>
    exact ih (stepEv g e)
      (accountInv_step g e hg (h e (by simp)))
      (fun e2 he2 => h e2 (by simp [he2]))

/-- C1: `init()` never throws (its embedding is total, returning a plain
state/Bool pair for every environment behaviour).  From a
not-yet-initialized state it returns `true` exactly when the extension
is present, the snap connection request resolves, and the installed-snap
metadata query resolves with a present snap; in every other environment
(extension absent, either handshake RPC rejecting, or no installed snap)
it returns `false`, and the stored `initialized` flag always equals the
returned value. -/
theorem init_handshake (st : ProviderState) (h : st.initialized = false)
    (hasMetamask : Bool) (c : Except String Unit)
    (g : Except String (Option String)) :
    ((init st hasMetamask c g).2 = true ↔
      hasMetamask = true ∧ c = .ok () ∧ ∃ s, g = .ok (some s)) ∧
    (init st hasMetamask c g).1.initialized = (init st hasMetamask c g).2 := by
  cases hasMetamask with
  | false => simp [init, h]
  | true =>
    cases c with
    | error e => simp [init, h]
    | ok u =>
      cases g with
      | error e => simp [init, h]
      | ok s => cases s <;> simp [init, h]

/-- C1 witness: from the fresh state, a fully successful handshake
returns `true`. -/
theorem init_handshake_witness :
    (init initialState true (.ok ()) (.ok (some "snapMeta"))).2 = true :=
  ((init_handshake initialState rfl true (.ok ()) (.ok (some "snapMeta"))).1).mpr
    ⟨rfl, rfl, "snapMeta", rfl⟩

/-- C2 counterexample: the claim as stated is false — `setAddress` is a
public operation that writes `account.address` directly without
touching `initialized`, so one `setAddress` call from the fresh state
(no login ever having happened, `initialized` still false) yields a
non-empty address, violating the invariant it was claimed to
preserve. -/
theorem setAddress_breaks_accountInv :
    accountInv initialG ∧
      ¬ accountInv (stepEv initialG (.evSetAddress "erd1example")) := by
  constructor <;> decide

/-- C2 (amended): over every run, from the fresh singleton, of the
public operations other than the raw setters `setAddress` /
`setAccount` (that is: `init`, `login`, `logout`, `getAddress`, with
arbitrary environment behaviour), `account.address` is non-empty only
when `initialized` is true and some `login` call has successfully
retrieved an address via the `mvx_getAddress` RPC. -/
theorem accountInv_preserved (evs : List Ev)
    (h : ∀ e ∈ evs, preservingEv e = true) :
    accountInv (runEvents initialG evs) :=
  accountInv_run initialG evs (by decide) h

/-- C2 witness: the invariant after a successful `init` followed by a
successful `login`. -/
theorem accountInv_preserved_witness :
    accountInv (runEvents initialG
      [.evInit true (.ok ()) (.ok (some "snapMeta")),
        .evLogin none (.ok "erd1b") (.ok "sig")]) :=
  accountInv_preserved
    [.evInit true (.ok ()) (.ok (some "snapMeta")),
      .evLogin none (.ok "erd1b") (.ok "sig")]
    (by decide)

/-- C3: while `initialized` is false, `login` (for every token option
and every RPC behaviour — so no RPC outcome is even consulted), `logout`
and `getAddress` all fail with the not-initialised error and leave the
state unchanged (`getAddress` is read-only by construction). -/
theorem before_init_rejects (st : ProviderState)
    (h : st.initialized = false) :
    (∀ tok a s, login st tok a s = (st, .error .notInitialized)) ∧
    logout st = (st, .error .notInitialized) ∧
    getAddress st = .error .notInitialized := by
  refine ⟨fun tok a s => ?_, ?_, ?_⟩ <;>
    simp [login, logout, getAddress, h]

/-- C3 witness: all three rejections at the fresh state, with RPCs that
would succeed. -/
theorem before_init_rejects_witness :
    login initialState (some "tok") (.ok "erd1a") (.ok "sig") =
        (initialState, .error .notInitialized) ∧
      logout initialState = (initialState, .error .notInitialized) ∧
      getAddress initialState = .error .notInitialized :=
  ⟨(before_init_rejects initialState rfl).1 (some "tok") (.ok "erd1a")
      (.ok "sig"),
    (before_init_rejects initialState rfl).2.1,
    (before_init_rejects initialState rfl).2.2⟩

/-- C4: every failure of `signTransactions` — for every transaction
list, every RPC behaviour and every parser behaviour — is the
`transactionCancelled` error: any error it returns is
`transactionCancelled`, an RPC rejection yields it (the original
rejection is discarded), and a response with an unparsable element
yields it too. -/
theorem signTransactions_normalizes (txs : List Transaction)
    (rpc : Except String (List String))
    (parse : String → Option Transaction) :
    (∀ e, signTransactions txs rpc parse = .error e →
      e = .transactionCancelled) ∧
    (∀ s, rpc = .error s →
      signTransactions txs rpc parse = .error .transactionCancelled) ∧
    (∀ strs, rpc = .ok strs → parseAll parse strs = none →
      signTransactions txs rpc parse = .error .transactionCancelled) := by
  cases rpc with
  | error s => simp [signTransactions]
  | ok strs =>
    cases hp : parseAll parse strs with
    | none => simp [signTransactions, hp]
    | some ts => simp [signTransactions, hp]

/-- C4 witness: `signTransactions([])` over a rejecting RPC yields
`transactionCancelled`, not the raw error. -/
theorem signTransactions_normalizes_witness :
    signTransactions [] (.error "user rejected") (fun _ => none) =
      .error .transactionCancelled :=
  (signTransactions_normalizes [] (.error "user rejected")
      (fun _ => none)).2.1 "user rejected" rfl

/-- C5: whenever the batched call `signTransactions([tx])` returns a
list, `signTransaction` fails with `cannotSignSingleTransaction` if that
list's length is not exactly one, and returns the element itself —
unchanged in identity — when the list has exactly one element. -/
theorem signTransaction_single
    (batchSign : List Transaction → Except ProviderErr (List Transaction))
    (tx : Transaction) (l : List Transaction)
    (h : batchSign [tx] = .ok l) :
    (l.length ≠ 1 →
      signTransactionWith batchSign tx =
        .error .cannotSignSingleTransaction) ∧
    (∀ t, l = [t] → signTransactionWith batchSign tx = .ok t) := by
  unfold signTransactionWith
  rw [h]
  constructor
  · intro hlen
    cases l with
    | nil => rfl
    | cons a rest =>
      cases rest with
      | nil => simp at hlen
      | cons b r2 => rfl
  · rintro t rfl
    rfl

/-- C5 witness: a zero-result batch stub fails with
`cannotSignSingleTransaction`; a one-result stub returns that very
transaction. -/
theorem signTransaction_single_witness :
    signTransactionWith (fun _ => .ok []) ⟨"tx0"⟩ =
        .error .cannotSignSingleTransaction ∧
      signTransactionWith (fun _ => .ok [⟨"tx0"⟩]) ⟨"tx0"⟩ = .ok ⟨"tx0"⟩ :=
  ⟨(signTransaction_single (fun _ => .ok []) ⟨"tx0"⟩ [] rfl).1 (by decide),
    (signTransaction_single (fun _ => .ok [⟨"tx0"⟩]) ⟨"tx0"⟩ [⟨"tx0"⟩]
        rfl).2 ⟨"tx0"⟩ rfl⟩

/-- C6: with an empty session address, `signMessage` fails with
`accountNotConnected` for every message, every extension-presence value
and every RPC behaviour — in particular the result does not depend on
the RPC at all, so no RPC call is issued. -/
theorem signMessage_requires_connection (st : ProviderState)
    (hasMetamask : Bool) (msg : Message) (rpc : Except String String)
    (h : st.account.address = "") :
    signMessage st hasMetamask msg rpc = .error .accountNotConnected := by
  simp [signMessage, connected, h]

/-- C6 witness: fresh state, extension present, resolving RPC — still
`accountNotConnected`. -/
theorem signMessage_requires_connection_witness :
    signMessage initialState true { data := [104] } (.ok "aa") =
      .error .accountNotConnected :=
  signMessage_requires_connection initialState true { data := [104] }
    (.ok "aa") rfl

/-- C7: in a connected state (non-empty session address, extension
present), when the signing RPC resolves with the hex string `hex`,
`signMessage` returns a message carrying the original data, the input
message's own address or else the session address, the fixed signer tag
`"metamask"`, the original version, and the signature obtained by
decoding `hex` from hexadecimal. -/
theorem signMessage_success (st : ProviderState) (msg : Message)
    (hex : String) (h : st.account.address ≠ "") :
    signMessage st true msg (.ok hex) =
      .ok
        { data := msg.data
          address :=
            some (msg.address.getD (Address.fromBech32 st.account.address))
          signer := some "metamask"
          version := msg.version
          signature := some (hexDecode hex) } := by
  have hb : (st.account.address != "") = true := by
    simpa [bne_iff_ne] using h
  simp [signMessage, connected, hb]

/-- C7 witness: RPC resolving with hex `"aa"` produces a signature of
the single byte `0xAA` (170), and the address falls back to the session
address when the input message carried none. -/
theorem signMessage_success_witness :
    signMessage { account := { address := "erd1a" }, initialized := true }
        true { data := [104, 105] } (.ok "aa") =
      .ok
        { data := [104, 105]
          address := some (Address.fromBech32 "erd1a")
          signer := some "metamask"
          version := 1
          signature := some (hexDecode "aa") } ∧
    hexDecode "aa" = [170] :=
  ⟨signMessage_success
      { account := { address := "erd1a" }, initialized := true }
      { data := [104, 105] } "aa" (by decide),
    by decide⟩

/-- C8: in an initialized state, `logout` resets the account to the
empty account (address empty, no name, no signature) and returns `true`
unconditionally; on the resulting state `isConnected` is false and
`getAddress` returns the empty string. -/
theorem logout_resets (st : ProviderState) (h : st.initialized = true) :
    logout st = ({ st with account := { address := "" } }, .ok true) ∧
    isConnected (logout st).1 = false ∧
    getAddress (logout st).1 = .ok "" := by
  simp [logout, isConnected, getAddress, h]

/-- C8 witness: logout from an initialized, logged-in state. -/
theorem logout_resets_witness :
    logout { account := { address := "erd1a" }, initialized := true } =
      ({ account := { address := "" }, initialized := true }, .ok true) :=
  (logout_resets { account := { address := "erd1a" }, initialized := true }
      rfl).1

/-- C9: once `initialized` is true, `init` is a no-op for every
environment behaviour (the handshake RPC outcomes are irrelevant): the
state is unchanged and the current `true` flag is returned. -/
theorem init_idempotent (st : ProviderState) (h : st.initialized = true)
    (hasMetamask : Bool) (c : Except String Unit)
    (g : Except String (Option String)) :
    init st hasMetamask c g = (st, true) := by
  rw [init_of_initialized st h, h]

/-- C9 witness: re-running `init` on an initialized state with an
environment whose handshake would fail still returns `true` and changes
nothing. -/
theorem init_idempotent_witness :
    init { account := { address := "erd1a" }, initialized := true } false
        (.error "down") (.error "down") =
      ({ account := { address := "erd1a" }, initialized := true }, true) :=
  init_idempotent { account := { address := "erd1a" }, initialized := true }
    rfl false (.error "down") (.error "down")

/-- C10: `login` with a token is not atomic on error: from an
initialized state, if the address RPC resolves with `a` but the
auth-token-signing RPC rejects with `e`, the rejection propagates to the
caller while `account.address` has already been set to `a`, and the
stored signature field is exactly what it was before. -/
theorem login_token_not_atomic (st : ProviderState) (t a e : String)
    (h : st.initialized = true) :
    login st (some t) (.ok a) (.error e) =
      ({ st with account := { st.account with address := a } },
        .error (.rpcErr e)) ∧
    ({ st with account := { st.account with address := a } }).account.signature
      = st.account.signature := by
  simp [login, h]

/-- C10 witness: concrete initialized state with a pre-existing
signature; the failing token step leaves the new address in place, the
old signature intact, and surfaces the rejection. -/
theorem login_token_not_atomic_witness :
    login
        { account := { address := "", signature := some "old" },
          initialized := true }
        (some "authTok") (.ok "erd1c") (.error "denied") =
      ({ account := { address := "erd1c", signature := some "old" },
          initialized := true },
        .error (.rpcErr "denied")) :=
  (login_token_not_atomic
      { account := { address := "", signature := some "old" },
        initialized := true }
      "authTok" "erd1c" "denied" rfl).1

end MetamaskProvider
